import Mathlib

/-!
Shallow embedding of the hotel ADR dashboard script (`src/app.py`).

Modelling conventions:
* A pandas DataFrame row is a `Row` structure; a frame is a `List Row`.
* Nullable cells (`NaN`/`NaT` after coercion) are `Option` values; aggregations
  skip `none` exactly as pandas skips missing values.
* Python floats are modelled as `ℚ` (exact arithmetic); `0.05` is `1/20`.
* Calendar dates are modelled as ordinal day numbers (`ℕ`): the script only
  ever compares dates, so any linear order is faithful.
* The `while` loop building the 5% bin edges is given an explicit fuel
  parameter; `none` means the fuel ran out, i.e. the loop has not terminated
  within that many iterations.
-/

namespace Dashboard

/-- A calendar date, as an ordinal day number (the script only compares dates). -/
abbrev Date := ℕ

/-- One reservation record after the load/normalize phase of `app.py`
(lines 10-18): nullable parsed `Check-in`, derived `Year`/`Month`/`Day`,
numeric `ADR` and `Total price` (both nullable after coercion), the free-text
`Room`, the derived `Room Type` (line 29), `night` (missing values already
defaulted to 1), and the two bucket columns that chart routines may add
(`none` = not assigned / NaN). -/
structure Row where
  checkIn : Option Date := none
  year : Option ℤ := none
  month : Option String := none
  day : Option ℕ := none
  adr : Option ℚ := none
  totalPrice : Option ℚ := none
  room : String := ""
  roomType : String := ""
  night : ℚ := 1
  adrGroup : Option String := none
  adrBin5P : Option String := none
  deriving DecidableEq

/-- Python's `needle in hay` on strings: contiguous-substring containment,
modelled on character lists. -/
def containsSub (needle hay : List Char) : Bool :=
  decide (needle <:+: hay)

/-- The room classifier `map_room_type` (app.py lines 21-28): lowercase the room text, then
first match wins: "shower", else "bathtub"/"bath tub", else Other. -/
def map_room_type (room : String) : String :=
  let r := room.toList.map Char.toLower
  if containsSub ("shower".toList) r then "Deluxe Twin Room with Shower"
  else if containsSub ("bathtub".toList) r || containsSub ("bath tub".toList) r then
    "Deluxe Twin Room with Bathtub"
  else "Other"

/-- Line 29: `data['Room Type'] = data['Room'].apply(map_room_type)`. -/
def addRoomType (data : List Row) : List Row :=
  data.map fun r => { r with roomType := map_room_type r.room }

/-- The date-range filter (app.py lines 45-49): keep rows whose `Check-in`
date is within `[startDate, endDate]` and whose `Room Type` is one of the two
recognized categories.  A row with an unparseable `Check-in` (`NaT`) fails
both pandas comparisons and is dropped, hence the `none => false` branch. -/
def filterTable (data : List Row) (startDate endDate : Date) : List Row :=
  data.filter fun r =>
    match r.checkIn with
    | some d => decide (startDate ≤ d) && decide (d ≤ endDate) &&
        (r.roomType == "Deluxe Twin Room with Shower" ||
         r.roomType == "Deluxe Twin Room with Bathtub")
    | none => false

/-- Chart 2 bucket labels (app.py line 92). -/
def adrGroupLabels : List String := ["<800", "800-1000", "1000-1200", ">1200"]

/-- Bucketing `pd.cut(x, bins=[0, 800, 1000, 1200, inf], labels=...)` (app.py
lines 91-93).  `pd.cut` uses right-closed intervals by default (`right=True`,
`include_lowest=False`), so the buckets are `(0,800]`, `(800,1000]`,
`(1000,1200]`, `(1200,∞)`; a value outside every bucket (here `x ≤ 0`)
becomes NaN (`none`). -/
def adr_group (x : ℚ) : Option String :=
  if 0 < x ∧ x ≤ 800 then some ("<800")
  else if 800 < x ∧ x ≤ 1000 then some ("800-1000")
  else if 1000 < x ∧ x ≤ 1200 then some ("1000-1200")
  else if 1200 < x then some (">1200")
  else none

/-- Line 93: `month_data['ADR Group'] = pd.cut(month_data['ADR'], ...)`.
A NaN `ADR` yields a NaN bucket. -/
def assignADRGroup (t : List Row) : List Row :=
  t.map fun r => { r with adrGroup := r.adr.bind adr_group }

/-- Descending-by-revenue order used by `sort_values("revenue",
ascending=False)` (app.py line 94): `a` comes no later than `b` when
`b.revenue ≤ a.revenue`.  pandas' `nargsort` implements descending order by
reversing the input, arg-sorting ascending, and reversing the result, which
on ties keeps the original (pre-sort) order — i.e. a stable descending sort,
which `List.insertionSort` with this relation is. -/
def revGE (a b : String × ℚ) : Prop := b.2 ≤ a.2

instance : DecidableRel revGE := fun a b => inferInstanceAs (Decidable (b.2 ≤ a.2))

instance : IsTotal (String × ℚ) revGE := ⟨fun a b => (le_total a.2 b.2).symm⟩

instance : IsTrans (String × ℚ) revGE := ⟨fun _ _ _ h h2 => le_trans h2 h⟩

/-- Grouping `month_data.groupby("ADR Group").agg(revenue=("Total price", "sum"))`
(app.py line 94).  The grouper is the categorical `ADR Group` column, so the
groups appear in category order; only categories observed in the data form
groups, NaN group keys are dropped, and `sum` skips NaN prices (an
all-missing group sums to 0). -/
def groupRevenue (t : List Row) : List (String × ℚ) :=
  (adrGroupLabels.filter fun l => t.any fun r => r.adrGroup == some l).map
    fun l => (l, ((t.filter fun r => r.adrGroup == some l).filterMap Row.totalPrice).sum)

/-- The Top-3 pipeline of app.py lines 93-94 applied to the month-filtered
rows: assign the `ADR Group` bucket, sum `Total price` per bucket, sort by
revenue descending (stable), keep the first 3 rows. -/
def top3 (monthData : List Row) : List (String × ℚ) :=
  (List.insertionSort revGE (groupRevenue (assignADRGroup monthData))).take 3

/-- What the Chart-2 branch (app.py lines 96-104) emits: an optional pie
chart (carrying the `top3` table it is drawn from), an optional caption, and
an optional warning. -/
structure Chart2Out where
  chart : Option (List (String × ℚ))
  caption : Option String
  warning : Option String
  deriving DecidableEq

/-- Chart 2 (app.py lines 88-104): filter `filtered` to the selected month,
run the Top-3 pipeline, then either draw the pie (plus a caption when fewer
than 3 groups were found) or warn that no data is available. -/
def chart2 (filtered : List Row) (selectedMonth : String) : Chart2Out :=
  let monthData := filtered.filter fun r => r.month == some selectedMonth
  let t3 := top3 monthData
  if t3 = [] then
    { chart := none, caption := none, warning := some ("No data available.") }
  else
    { chart := some t3
      caption :=
        if t3.length < 3 then
          some ("⚠️ Only " ++ toString t3.length ++ " ADR groups found for "
            ++ selectedMonth ++ ".")
        else none
      warning := none }

/-- The body of the bin-edge `while` loop (app.py lines 163-165), returning
the list of edges appended after `last`: while `last < hi`, append
`last * (1 + 0.05)`.  `fuel` bounds the number of iterations; `none` means
the loop has not terminated within `fuel` iterations. -/
def binEdgesFrom (hi : ℚ) : ℕ → ℚ → Option (List ℚ)
  | 0, last => if last < hi then none else some []
  | fuel + 1, last =>
    if last < hi then
      (binEdgesFrom hi fuel (last * (21/20))).map fun rest => last * (21/20) :: rest
    else some []

/-- Edge construction `bin_edges` (app.py lines 160-165): start from the filtered minimum ADR
`lo` and keep multiplying by 1.05 until the edge meets/exceeds the filtered
maximum ADR `hi`. -/
def bin_edges (lo hi : ℚ) (fuel : ℕ) : Option (List ℚ) :=
  (binEdgesFrom hi fuel lo).map fun rest => lo :: rest

/-- Python's `int()` on a number: truncation toward zero. -/
def pyInt (q : ℚ) : ℤ :=
  if q < 0 then -(Int.floor (-q)) else Int.floor q

/-- Labels `bin_labels` (app.py line 166): one label per consecutive pair of edges,
with both endpoints truncated to integers. -/
def binLabels (edges : List ℚ) : List String :=
  (edges.zip edges.tail).map fun p => toString (pyInt p.1) ++ "-" ++ toString (pyInt p.2)

/-- Binning `pd.cut(x, bins=edges, labels=labels, include_lowest=True)` for one
value: the first interval is closed `[e₀, e₁]`, later ones are `(eᵢ, eᵢ₊₁]`;
a value in no interval becomes NaN (`none`). -/
def cutAssign : Bool → List ℚ → List String → ℚ → Option String
  | first, e1 :: e2 :: es, l :: ls, x =>
    if (if first then e1 ≤ x else e1 < x) ∧ x ≤ e2 then some l
    else cutAssign false (e2 :: es) ls x
  | _, _, _, _ => none

/-- The per-interaction state the chart branches share: the variable
`filtered` produced by the date-range filter (app.py line 45). -/
structure DashState where
  filtered : List Row
  deriving DecidableEq

/-- The Chart-2 branch as a state transformer.  Its only assignments are to
`month_data` (lines 90 and 93) and `top3` (line 94); `month_data` is a fresh
frame produced by boolean-mask indexing, so writing the `ADR Group` column
to it leaves the shared `filtered` frame untouched, and the branch returns
the state unchanged. -/
def chart2Run (s : DashState) (selectedMonth : String) : DashState × Chart2Out :=
  (s, chart2 s.filtered selectedMonth)

/-- The Chart-5 branch (app.py lines 160-170) as a state transformer:
compute the 5% bin edges from the filtered min/max ADR (pandas `min`/`max`
skip NaN; `none` when there is no ADR at all or the edge loop does not
terminate within `fuel` iterations), then line 167 assigns the `ADR_BIN_5P`
column directly onto `filtered` itself, so the resulting state carries the
mutated frame. -/
def chart5Run (fuel : ℕ) (s : DashState) : Option DashState :=
  match (s.filtered.filterMap Row.adr).min?, (s.filtered.filterMap Row.adr).max? with
  | some lo, some hi =>
    (bin_edges lo hi fuel).map fun edges =>
      let labels := binLabels edges
      { filtered := s.filtered.map fun r =>
          { r with adrBin5P := r.adr.bind (cutAssign true edges labels) } }
  | _, _ => none

/-- The fixed calendar-month labels (app.py lines 82, 89, 110). -/
def monthNames : List String :=
  ["Jan", "Feb", "Mar", "Apr", "May", "Jun", "Jul", "Aug", "Sep", "Oct", "Nov", "Dec"]

/-- Lexicographic order on group keys: pandas `groupby` sorts the group keys
ascending by default. -/
def strLE (a b : String) : Prop := a ≤ b

instance : DecidableRel strLE := fun a b => inferInstanceAs (Decidable (a ≤ b))

instance : IsTotal String strLE := ⟨fun a b => le_total a b⟩

instance : IsTrans String strLE := ⟨fun _ _ _ h h2 => le_trans h h2⟩

/-- The group keys of `filtered.groupby(['Month'])` (app.py line 109): the
distinct non-null `Month` values, sorted ascending. -/
def monthKeys (t : List Row) : List String :=
  List.insertionSort strLE (t.filterMap Row.month).dedup

/-- One aggregated Year-over-Year row: the month label, the mean ADR over the
group's non-null ADR values (`none` when there are none), and the bookings
count (`('ADR', 'count')` counts the non-null ADR values). -/
def yoyAgg (t : List Row) (m : String) : String × Option ℚ × ℕ :=
  let vals := (t.filter fun r => r.month == some m).filterMap Row.adr
  (m, if vals.length = 0 then none else some (vals.sum / (vals.length : ℚ)), vals.length)

/-- Grouping `filtered.groupby(['Month']).agg(ADR=('ADR','mean'), Bookings=('ADR','count'))`
(app.py line 109): one row per distinct month, year ignored. -/
def yoyRows (t : List Row) : List (String × Option ℚ × ℕ) :=
  (monthKeys t).map (yoyAgg t)

/-- The calendar order imposed by making `Month` an ordered categorical and
sorting (app.py lines 110-111): compare positions in `monthNames` (a label
outside the category list would become NaN and sort last; `indexOf` returns
the list length there, matching). -/
def calLE (a b : String × Option ℚ × ℕ) : Prop :=
  monthNames.indexOf a.1 ≤ monthNames.indexOf b.1

instance : DecidableRel calLE :=
  fun a b => inferInstanceAs (Decidable (monthNames.indexOf a.1 ≤ monthNames.indexOf b.1))

instance : IsTotal (String × Option ℚ × ℕ) calLE :=
  ⟨fun a b => le_total (monthNames.indexOf a.1) (monthNames.indexOf b.1)⟩

instance : IsTrans (String × Option ℚ × ℕ) calLE :=
  ⟨fun _ _ _ h h2 => le_trans h h2⟩

/-- The Year-over-Year aggregation (app.py lines 109-111): group by `Month`
only, then reorder the rows into calendar-month order. -/
def yoy (t : List Row) : List (String × Option ℚ × ℕ) :=
  List.insertionSort calLE (yoyRows t)

/-- Outcome of one interaction's filter phase (app.py lines 43-52): either
the validation error (line 51) followed by `st.stop()` — nothing rendered —
or the filtered table handed to the chart branches. -/
inductive FilterOutcome
  | errorStop : String → FilterOutcome
  | rendered : List Row → FilterOutcome
  deriving DecidableEq

/-- The filter phase (app.py lines 43-52): `st.date_input` yields a tuple of
dates, modelled as a list; only a pair `(start, end)` passes the
`isinstance(..., tuple) and len(...) == 2` guard, anything else shows the
error and stops.  Each interaction reruns this from scratch, so the outcome
depends only on the current selection. -/
def runFilter (data : List Row) (selectedDates : List Date) : FilterOutcome :=
  match selectedDates with
  | [s, e] => .rendered (filterTable data s e)
  | _ => .errorStop ("⚠️ Please select both a start and end date.")

/-! ### Theorems -/

/-- C1, counterexample: the claim says an ADR of exactly 800 is labelled
`800-1000` and exactly 1200 is labelled `>1200`; the code labels them `<800`
and `1000-1200` respectively, because `pd.cut`'s intervals are right-closed. -/
theorem adr_group_cex :
    adr_group 800 = some ("<800") ∧ adr_group 800 ≠ some ("800-1000") ∧
    adr_group 1200 = some ("1000-1200") ∧ adr_group 1200 ≠ some (">1200") := by
  have h8 : adr_group 800 = some ("<800") := by norm_num [adr_group]
  have h12 : adr_group 1200 = some ("1000-1200") := by norm_num [adr_group]
  exact ⟨h8, by rw [h8]; decide, h12, by rw [h12]; decide⟩

/-- C1, amended: the ADR Group buckets are half-open with a closed RIGHT
edge (and values at or below 0 fall in no bucket): 799.99 and 800 are both
labelled `<800`; 1199.99 and 1200 are both labelled `1000-1200`; `>1200` is
exactly the values strictly above 1200. -/
theorem adr_group_boundaries :
    adr_group (79999/100) = some ("<800") ∧ adr_group 800 = some ("<800") ∧
    adr_group (119999/100) = some ("1000-1200") ∧
    adr_group 1200 = some ("1000-1200") ∧
    (∀ x : ℚ, 0 < x → x ≤ 800 → adr_group x = some ("<800")) ∧
    (∀ x : ℚ, 800 < x → x ≤ 1000 → adr_group x = some ("800-1000")) ∧
    (∀ x : ℚ, 1000 < x → x ≤ 1200 → adr_group x = some ("1000-1200")) ∧
    (∀ x : ℚ, adr_group x = some (">1200") ↔ 1200 < x) := by
  refine ⟨by norm_num [adr_group], by norm_num [adr_group], by norm_num [adr_group],
    by norm_num [adr_group], fun x h1 h2 => ?_, fun x h1 h2 => ?_, fun x h1 h2 => ?_,
    fun x => ?_⟩
  · rw [adr_group, if_pos ⟨h1, h2⟩]
  · rw [adr_group, if_neg (by rintro ⟨-, h⟩; linarith), if_pos ⟨h1, h2⟩]
  · rw [adr_group, if_neg (by rintro ⟨-, h⟩; linarith),
      if_neg (by rintro ⟨-, h⟩; linarith), if_pos ⟨h1, h2⟩]
  · constructor
    · intro h
      by_contra hle
      push_neg at hle
      rw [adr_group] at h
      split_ifs at h <;> first | exact absurd h (by decide) | linarith
    · intro h
      rw [adr_group, if_neg (by rintro ⟨-, h2⟩; linarith),
        if_neg (by rintro ⟨-, h2⟩; linarith), if_neg (by rintro ⟨-, h2⟩; linarith),
        if_pos h]

/-- Witness for `adr_group_boundaries` at concrete boundary inputs. -/
theorem adr_group_boundaries_witness :
    adr_group 500 = some ("<800") ∧ adr_group 900 = some ("800-1000") ∧
    adr_group 1100 = some ("1000-1200") ∧ adr_group 1300 = some (">1200") :=
  ⟨adr_group_boundaries.2.2.2.2.1 500 (by norm_num) (by norm_num),
   adr_group_boundaries.2.2.2.2.2.1 900 (by norm_num) (by norm_num),
   adr_group_boundaries.2.2.2.2.2.2.1 1100 (by norm_num) (by norm_num),
   (adr_group_boundaries.2.2.2.2.2.2.2 1300).mpr (by norm_num)⟩

/-- Unfolding lemma for `map_room_type`. -/
theorem map_room_type_eq (room : String) :
    map_room_type room =
      (if containsSub ("shower".toList) (room.toList.map Char.toLower) then
        "Deluxe Twin Room with Shower"
      else if containsSub ("bathtub".toList) (room.toList.map Char.toLower) ||
              containsSub ("bath tub".toList) (room.toList.map Char.toLower) then
        "Deluxe Twin Room with Bathtub"
      else "Other") := rfl

/-- C7: the room classifier is a pure function into exactly three labels,
decided on the lowercased text (hence case-insensitive: two texts with the
same lowercasing classify identically), with fixed priority: "shower" wins
over any co-occurring "bathtub"/"bath tub"; otherwise "bathtub" or
"bath tub" gives the Bathtub variant; otherwise Other. -/
theorem map_room_type_spec :
    ∀ room : String,
      (map_room_type room = "Deluxe Twin Room with Shower" ∨
       map_room_type room = "Deluxe Twin Room with Bathtub" ∨
       map_room_type room = "Other") ∧
      (containsSub ("shower".toList) (room.toList.map Char.toLower) = true →
        map_room_type room = "Deluxe Twin Room with Shower") ∧
      (containsSub ("shower".toList) (room.toList.map Char.toLower) = false →
       (containsSub ("bathtub".toList) (room.toList.map Char.toLower) = true ∨
        containsSub ("bath tub".toList) (room.toList.map Char.toLower) = true) →
        map_room_type room = "Deluxe Twin Room with Bathtub") ∧
      (containsSub ("shower".toList) (room.toList.map Char.toLower) = false →
       containsSub ("bathtub".toList) (room.toList.map Char.toLower) = false →
       containsSub ("bath tub".toList) (room.toList.map Char.toLower) = false →
        map_room_type room = "Other") ∧
      (∀ room2 : String,
        room2.toList.map Char.toLower = room.toList.map Char.toLower →
        map_room_type room2 = map_room_type room) := by
  intro room
  refine ⟨?_, fun h => ?_, fun h hb => ?_, fun h hb hbt => ?_, fun room2 h => ?_⟩
  · rw [map_room_type_eq]
    split_ifs <;> simp
  · rw [map_room_type_eq, h, if_pos rfl]
  · rw [map_room_type_eq, h]
    rcases hb with hb | hb <;> rw [hb] <;> simp
  · rw [map_room_type_eq, h, hb, hbt]
    rfl
  · rw [map_room_type_eq, map_room_type_eq, h]

/-- Witness for `map_room_type_spec`: a room text containing both "Shower"
and "BATHTUB" is classified as the Shower variant. -/
theorem map_room_type_spec_witness :
    map_room_type "Deluxe TWIN with BATHTUB and Shower" =
      "Deluxe Twin Room with Shower" :=
  (map_room_type_spec "Deluxe TWIN with BATHTUB and Shower").2.1 (by decide)

/-- C9: when the date-range selection is not exactly a start+end pair, the
interaction produces the validation error and stops (so no chart is drawn);
when both dates are present the filter runs and rendering proceeds.  The
outcome depends only on the current selection, so the error state is left as
soon as the next interaction supplies a valid pair. -/
theorem runFilter_validation :
    ∀ (data : List Row) (sel : List Date),
      (sel.length ≠ 2 →
        runFilter data sel =
          .errorStop ("⚠️ Please select both a start and end date.")) ∧
      (∀ s e : Date, runFilter data [s, e] = .rendered (filterTable data s e)) := by
  intro data sel
  refine ⟨fun h => ?_, fun s e => rfl⟩
  match sel with
  | [] => rfl
  | [_] => rfl
  | [_, _] => exact absurd rfl h
  | _ :: _ :: _ :: _ => rfl

/-- Witness for `runFilter_validation`: a one-element selection errors and
stops, a two-element selection renders the filtered table. -/
theorem runFilter_validation_witness :
    runFilter [] [3] = .errorStop ("⚠️ Please select both a start and end date.") ∧
    runFilter [] [1, 2] = .rendered (filterTable [] 1 2) :=
  ⟨(runFilter_validation [] [3]).1 (by decide),
   (runFilter_validation [] [1, 2]).2 1 2⟩

/-- C6: every row surviving the date-range filter has a parsed `Check-in`
date inside the inclusive `[start, end]` interval and a `Room Type` equal to
one of the two recognized categories — in particular never `Other`. -/
theorem filterTable_bounds :
    ∀ (data : List Row) (s e : Date) (r : Row), r ∈ filterTable data s e →
      (∃ d, r.checkIn = some d ∧ s ≤ d ∧ d ≤ e) ∧
      (r.roomType = "Deluxe Twin Room with Shower" ∨
       r.roomType = "Deluxe Twin Room with Bathtub") ∧
      r.roomType ≠ "Other" := by
  intro data s e r hr
  have h := (List.mem_filter.mp hr).2
  cases hc : r.checkIn with
  | none => rw [hc] at h; simp at h
  | some d =>
    rw [hc] at h
    simp only [Bool.and_eq_true, Bool.or_eq_true, decide_eq_true_eq,
      beq_iff_eq] at h
    obtain ⟨⟨h1, h2⟩, h3⟩ := h
    refine ⟨⟨d, rfl, h1, h2⟩, h3, ?_⟩
    rcases h3 with h3 | h3 <;> rw [h3] <;> decide

/-- Witness row for `filterTable_bounds`. -/
def w6Row : Row := { checkIn := some 5, roomType := "Deluxe Twin Room with Shower" }

/-- Witness for `filterTable_bounds` on a one-row table. -/
theorem filterTable_bounds_witness :
    (∃ d, w6Row.checkIn = some d ∧ 3 ≤ d ∧ d ≤ 9) ∧
    (w6Row.roomType = "Deluxe Twin Room with Shower" ∨
     w6Row.roomType = "Deluxe Twin Room with Bathtub") ∧
    w6Row.roomType ≠ "Other" :=
  filterTable_bounds [w6Row] 3 9 w6Row (by decide)

/-- Month-filtered rows realizing revenue sums 500, 900, 300, 900 for the
four ADR Group buckets in category (pre-sort) order: `<800` ↦ 500,
`800-1000` ↦ 900, `1000-1200` ↦ 300, `>1200` ↦ 900. -/
def c4Rows : List Row :=
  [{ month := some ("Jan"), adr := some 700, totalPrice := some 500 },
   { month := some ("Jan"), adr := some 900, totalPrice := some 900 },
   { month := some ("Jan"), adr := some 1100, totalPrice := some 300 },
   { month := some ("Jan"), adr := some 1300, totalPrice := some 900 }]

/-- C4: the Top-3 routine keeps `min 3 (number of buckets)` rows sorted by
revenue descending, and on the concrete 4-bucket input with sums
{A:500, B:900, C:300, D:900} it returns exactly 3 rows, descending, with the
B/D tie resolved in favour of B, the bucket earlier in pre-sort order. -/
theorem top3_spec :
    (∀ monthData : List Row,
      (top3 monthData).length =
        min 3 (groupRevenue (assignADRGroup monthData)).length ∧
      List.Sorted revGE (top3 monthData)) ∧
    top3 c4Rows = [("800-1000", 900), (">1200", 900), ("<800", 500)] := by
  constructor
  · intro monthData
    constructor
    · rw [top3, List.length_take, List.length_insertionSort]
    · exact (List.sorted_insertionSort revGE _).sublist (List.take_sublist _ _)
  · simp +decide [top3, groupRevenue, assignADRGroup, adr_group, c4Rows, adrGroupLabels,
      List.insertionSort, List.orderedInsert, revGE, beq_iff_eq,
      List.filter_cons, List.filter_nil, List.filterMap_cons, List.filterMap_nil, reduceIte]

/-- Unfolding lemma for `chart2`. -/
theorem chart2_def (filtered : List Row) (m : String) :
    chart2 filtered m =
      (if top3 (filtered.filter fun r => r.month == some m) = [] then
        { chart := none, caption := none, warning := some ("No data available.") }
      else
        { chart := some (top3 (filtered.filter fun r => r.month == some m))
          caption :=
            if (top3 (filtered.filter fun r => r.month == some m)).length < 3 then
              some ("⚠️ Only " ++
                toString (top3 (filtered.filter fun r => r.month == some m)).length
                ++ " ADR groups found for " ++ m ++ ".")
            else none
          warning := none }) := rfl

/-- C2, part of the statement as one theorem: if the selected month matches
no filtered rows, Chart 2 produces the "No data available." warning and no
chart object; if the Top-3 table is nonempty but holds fewer than 3 buckets,
the chart is drawn together with the caption reporting the bucket count. -/
theorem chart2_empty_and_caption :
    ∀ (filtered : List Row) (m : String),
      ((filtered.filter fun r => r.month == some m) = [] →
        chart2 filtered m =
          { chart := none, caption := none,
            warning := some ("No data available.") }) ∧
      (top3 (filtered.filter fun r => r.month == some m) ≠ [] →
       (top3 (filtered.filter fun r => r.month == some m)).length < 3 →
        chart2 filtered m =
          { chart := some (top3 (filtered.filter fun r => r.month == some m))
            caption := some ("⚠️ Only " ++
              toString (top3 (filtered.filter fun r => r.month == some m)).length
              ++ " ADR groups found for " ++ m ++ ".")
            warning := none }) := by
  intro filtered m
  constructor
  · intro h
    have ht : top3 (filtered.filter fun r => r.month == some m) = [] := by rw [h]; rfl
    rw [chart2_def, ht, if_pos rfl]
  · intro h1 h2
    rw [chart2_def, if_neg h1, if_pos h2]

/-- Witness rows for `chart2_empty_and_caption`: a single row in January
falling in one bucket. -/
def c2Row : Row := { month := some ("Jan"), adr := some 700, totalPrice := some 500 }

/-- Witness for `chart2_empty_and_caption`: the empty table warns with no
chart; a one-bucket January table draws the chart with the caption. -/
theorem chart2_empty_and_caption_witness :
    chart2 [] "Jan" =
      { chart := none, caption := none, warning := some ("No data available.") } ∧
    chart2 [c2Row] "Jan" =
      { chart := some (top3 ([c2Row].filter fun r => r.month == some ("Jan")))
        caption := some ("⚠️ Only " ++
          toString (top3 ([c2Row].filter fun r => r.month == some ("Jan"))).length
          ++ " ADR groups found for " ++ "Jan" ++ ".")
        warning := none } :=
  ⟨(chart2_empty_and_caption [] "Jan").1 rfl,
   (chart2_empty_and_caption [c2Row] "Jan").2
     (by simp +decide [top3, groupRevenue, assignADRGroup, adr_group, c2Row, adrGroupLabels,
        List.insertionSort, List.orderedInsert, revGE, beq_iff_eq,
        List.filter_cons, List.filter_nil, List.filterMap_cons, List.filterMap_nil, reduceIte])
     (by simp +decide [top3, groupRevenue, assignADRGroup, adr_group, c2Row, adrGroupLabels,
        List.insertionSort, List.orderedInsert, revGE, beq_iff_eq,
        List.filter_cons, List.filter_nil, List.filterMap_cons, List.filterMap_nil, reduceIte])⟩

/-- Helper: starting the edge loop at 0 never advances (`0 * 1.05 = 0`), so
with a positive target no amount of fuel makes it terminate. -/
theorem binEdgesFrom_zero (hi : ℚ) (hpos : 0 < hi) :
    ∀ fuel : ℕ, binEdgesFrom hi fuel 0 = none := by
  intro fuel
  induction fuel with
  | zero => simp only [binEdgesFrom]; rw [if_pos hpos]
  | succ n ih => simp only [binEdgesFrom]; rw [if_pos hpos, zero_mul, ih]; rfl

/-- Helper: enough fuel makes the edge loop terminate, namely any `fuel` with
`hi ≤ lo * 1.05 ^ fuel`. -/
theorem binEdgesFrom_some (hi : ℚ) :
    ∀ (fuel : ℕ) (lo : ℚ), 0 < lo → hi ≤ lo * (21/20) ^ fuel →
      ∃ rest, binEdgesFrom hi fuel lo = some rest := by
  intro fuel
  induction fuel with
  | zero =>
    intro lo hpos hle
    rw [pow_zero, mul_one] at hle
    exact ⟨[], by simp only [binEdgesFrom]; rw [if_neg (not_lt.mpr hle)]⟩
  | succ n ih =>
    intro lo hpos hle
    by_cases hlt : lo < hi
    · have hpos2 : 0 < lo * (21/20) := by positivity
      have hle2 : hi ≤ lo * (21/20) * (21/20) ^ n := by
        calc hi ≤ lo * (21/20) ^ (n + 1) := hle
          _ = lo * (21/20) * (21/20) ^ n := by ring
      obtain ⟨rest, hrest⟩ := ih (lo * (21/20)) hpos2 hle2
      refine ⟨lo * (21/20) :: rest, ?_⟩
      simp only [binEdgesFrom]
      rw [if_pos hlt, hrest]
      rfl
    · exact ⟨[], by simp only [binEdgesFrom]; rw [if_neg hlt]⟩

/-- Helper: every edge appended by the loop is the previous edge times 1.05. -/
theorem binEdgesFrom_chain (hi : ℚ) :
    ∀ (fuel : ℕ) (lo : ℚ) (rest : List ℚ), binEdgesFrom hi fuel lo = some rest →
      List.Chain (fun a b => b = a * (21/20)) lo rest := by
  intro fuel
  induction fuel with
  | zero =>
    intro lo rest h
    simp only [binEdgesFrom] at h
    split_ifs at h
    obtain rfl : rest = [] := (Option.some.inj h).symm
    exact List.Chain.nil
  | succ n ih =>
    intro lo rest h
    simp only [binEdgesFrom] at h
    split_ifs at h with hlt
    · cases hr : binEdgesFrom hi n (lo * (21/20)) with
      | none => rw [hr] at h; exact absurd h (by simp)
      | some rest2 =>
        rw [hr] at h
        simp only [Option.map_some'] at h
        obtain rfl : rest = lo * (21/20) :: rest2 := (Option.some.inj h).symm
        exact List.Chain.cons rfl (ih _ _ hr)
    · obtain rfl : rest = [] := (Option.some.inj h).symm
      exact List.Chain.nil

/-- Helper: a times-1.05 chain starting at a positive value is strictly
increasing. -/
theorem chain_ratio_lt :
    ∀ (rest : List ℚ) (lo : ℚ), 0 < lo →
      List.Chain (fun a b => b = a * (21/20)) lo rest →
      List.Chain (fun a b => a < b) lo rest := by
  intro rest
  induction rest with
  | nil => intro lo _ _; exact List.Chain.nil
  | cons b l ih =>
    intro lo hpos hc
    cases hc with
    | cons hb hl =>
      have hlt : lo < b := by rw [hb]; nlinarith
      have hbpos : 0 < b := lt_trans hpos hlt
      exact List.Chain.cons hlt (ih b hbpos hl)

/-- Helper: when the loop terminates, the last edge reached is at least the
target `hi`. -/
theorem binEdgesFrom_last (hi : ℚ) :
    ∀ (fuel : ℕ) (lo : ℚ) (rest : List ℚ), binEdgesFrom hi fuel lo = some rest →
      hi ≤ rest.getLastD lo := by
  intro fuel
  induction fuel with
  | zero =>
    intro lo rest h
    simp only [binEdgesFrom] at h
    split_ifs at h with hlt
    obtain rfl : rest = [] := (Option.some.inj h).symm
    exact not_lt.mp hlt
  | succ n ih =>
    intro lo rest h
    simp only [binEdgesFrom] at h
    split_ifs at h with hlt
    · cases hr : binEdgesFrom hi n (lo * (21/20)) with
      | none => rw [hr] at h; exact absurd h (by simp)
      | some rest2 =>
        rw [hr] at h
        simp only [Option.map_some'] at h
        obtain rfl : rest = lo * (21/20) :: rest2 := (Option.some.inj h).symm
        rw [List.getLastD_cons]
        exact ih _ _ hr
    · obtain rfl : rest = [] := (Option.some.inj h).symm
      exact not_lt.mp hlt

/-- Helper: the geometric growth of the edges is unbounded, so some fuel
always reaches the target when the start is positive. -/
theorem exists_fuel_le (lo hi : ℚ) (hpos : 0 < lo) :
    ∃ n : ℕ, hi ≤ lo * (21/20) ^ n := by
  rcases le_or_lt hi lo with h | h
  · exact ⟨0, by rw [pow_zero, mul_one]; exact h⟩
  · obtain ⟨n, hn⟩ := pow_unbounded_of_one_lt (hi / lo) (by norm_num : (1:ℚ) < 21/20)
    refine ⟨n, le_of_lt ?_⟩
    have h2 := (div_lt_iff₀ hpos).mp hn
    linarith [h2]

/-- C3: whenever the 5% bin-edge loop terminates on a positive filtered
minimum, the produced edges start at that minimum, grow by the factor 1.05
at each step, are strictly increasing, and end at or above the filtered
maximum; and for min 100 / max 150 the edges are concretely
100, 105, 110.25, 115.7625, …, 155.1328…, the last being ≥ 150. -/
theorem bin_edges_spec :
    (∀ (lo hi : ℚ) (fuel : ℕ) (edges : List ℚ), 0 < lo →
      bin_edges lo hi fuel = some edges →
        edges.head? = some lo ∧
        List.Chain' (fun a b => b = a * (21/20)) edges ∧
        List.Chain' (fun a b => a < b) edges ∧
        hi ≤ edges.getLastD 0) ∧
    bin_edges 100 150 20 = some [100, 105, 441/4, 9261/80, 194481/1600,
      4084101/32000, 85766121/640000, 1801088541/12800000, 37822859361/256000000,
      794280046581/5120000000] := by
  constructor
  · intro lo hi fuel edges hpos h
    rw [bin_edges] at h
    cases hr : binEdgesFrom hi fuel lo with
    | none => rw [hr] at h; exact absurd h (by simp)
    | some rest =>
      rw [hr] at h
      simp only [Option.map_some'] at h
      obtain rfl : edges = lo :: rest := (Option.some.inj h).symm
      refine ⟨rfl, ?_, ?_, ?_⟩
      · exact binEdgesFrom_chain hi fuel lo rest hr
      · exact chain_ratio_lt rest lo hpos (binEdgesFrom_chain hi fuel lo rest hr)
      · rw [List.getLastD_cons]
        exact binEdgesFrom_last hi fuel lo rest hr
  · norm_num [bin_edges, binEdgesFrom, reduceIte]

/-- Witness for `bin_edges_spec`: the loop from min 1 to max 21/20 stops
after one step with edges `[1, 21/20]`, which satisfy all four properties. -/
theorem bin_edges_spec_witness :
    ([1, 21/20] : List ℚ).head? = some 1 ∧
    List.Chain' (fun a b : ℚ => b = a * (21/20)) [1, 21/20] ∧
    List.Chain' (fun a b : ℚ => a < b) [1, 21/20] ∧
    (21/20 : ℚ) ≤ ([1, 21/20] : List ℚ).getLastD 0 :=
  bin_edges_spec.1 1 (21/20) 1 [1, 21/20] (by norm_num)
    (by norm_num [bin_edges, binEdgesFrom, reduceIte])

/-- C10: the bin-edge loop terminates (with some fuel) whenever the filtered
minimum ADR is strictly positive, and when the minimum is 0 while the
maximum is positive it never terminates (no fuel yields a result, as the
edge stays at 0 forever). -/
theorem bin_edges_termination :
    (∀ lo hi : ℚ, 0 < lo →
      ∃ (fuel : ℕ) (edges : List ℚ), bin_edges lo hi fuel = some edges) ∧
    (∀ (hi : ℚ) (fuel : ℕ), 0 < hi → bin_edges 0 hi fuel = none) := by
  constructor
  · intro lo hi hpos
    obtain ⟨n, hn⟩ := exists_fuel_le lo hi hpos
    obtain ⟨rest, hrest⟩ := binEdgesFrom_some hi n lo hpos hn
    exact ⟨n, lo :: rest, by rw [bin_edges, hrest]; rfl⟩
  · intro hi fuel hpos
    rw [bin_edges, binEdgesFrom_zero hi hpos fuel]
    rfl

/-- Witness for `bin_edges_termination` at min 2 / max 3 and at min 0 / max 5. -/
theorem bin_edges_termination_witness :
    (∃ (fuel : ℕ) (edges : List ℚ), bin_edges 2 3 fuel = some edges) ∧
    bin_edges 0 5 7 = none :=
  ⟨bin_edges_termination.1 2 3 (by norm_num),
   bin_edges_termination.2 5 7 (by norm_num)⟩

/-- Concrete state exhibiting the Chart-5 mutation: the shared filtered
table holds two rows with ADR 100 and 102 and no bin column. -/
def s5 : DashState := ⟨[{ adr := some 100 }, { adr := some 102 }]⟩

/-- The table after the Chart-5 branch ran on `s5`: both rows now carry the
`ADR_BIN_5P` value `100-105`. -/
def s5mut : List Row :=
  [{ adr := some 100, adrBin5P := some ("100-105") },
   { adr := some 102, adrBin5P := some ("100-105") }]

/-- Helper: evaluating the Chart-5 branch on `s5` (edges `[100, 105]`, one
label `100-105`). -/
theorem chart5Run_s5_eval : chart5Run 1 s5 = some ⟨s5mut⟩ := by
  norm_num [chart5Run, s5, s5mut, bin_edges, binEdgesFrom, binLabels, pyInt,
    cutAssign, List.min?, List.max?, min_def, max_def, reduceIte,
    List.filterMap_cons, List.filterMap_nil, List.foldl_cons, List.foldl_nil,
    List.zip_cons_cons, List.zip_nil_right, List.map_cons, List.map_nil,
    Option.some_bind]
  rfl

/-- C5, counterexample: the Chart-5 branch does not work on a routine-local
copy — line 167 of app.py assigns the `ADR_BIN_5P` column directly onto the
shared `filtered` frame, so after the branch runs on `s5` the filtered table
differs from the one the other routines were given. -/
theorem chart5_mutates_cex :
    chart5Run 1 s5 = some ⟨s5mut⟩ ∧ s5mut ≠ s5.filtered :=
  ⟨chart5Run_s5_eval, by decide⟩

/-- C5, amended: the Chart-2 branch adds its `ADR Group` bucket column on a
routine-local frame (`month_data`) and leaves the shared filtered table
unchanged, but the Chart-5 branch writes the `ADR_BIN_5P` bucket column
directly onto the shared filtered table: whenever it runs, the state's table
is replaced by a copy of itself carrying the new column on every row. -/
theorem routine_local_copies :
    (∀ (s : DashState) (m : String), (chart2Run s m).1.filtered = s.filtered) ∧
    (∀ (fuel : ℕ) (s s2 : DashState), chart5Run fuel s = some s2 →
      ∃ (edges : List ℚ) (labels : List String),
        s2.filtered = s.filtered.map fun r =>
          { r with adrBin5P := r.adr.bind (cutAssign true edges labels) }) := by
  constructor
  · intro s m
    rfl
  · intro fuel s s2 h
    unfold chart5Run at h
    split at h
    · cases he : bin_edges _ _ fuel with
      | none =>
        rw [he] at h
        exact absurd h (by simp)
      | some edges =>
        rw [he] at h
        simp only [Option.map_some'] at h
        refine ⟨edges, binLabels edges, ?_⟩
        rw [← Option.some.inj h]
    · exact Option.noConfusion h

/-- Witness for `routine_local_copies` on the concrete state `s5`. -/
theorem routine_local_copies_witness :
    (chart2Run s5 "Jan").1.filtered = s5.filtered ∧
    ∃ (edges : List ℚ) (labels : List String),
      (⟨s5mut⟩ : DashState).filtered = s5.filtered.map fun r =>
        { r with adrBin5P := r.adr.bind (cutAssign true edges labels) } :=
  ⟨routine_local_copies.1 s5 "Jan",
   routine_local_copies.2 1 s5 ⟨s5mut⟩ chart5Run_s5_eval⟩

/-- C8: the Year-over-Year aggregation depends only on month and ADR, not on
the year (changing every row's `Year` arbitrarily leaves the result
unchanged, so two years sharing a month label merge); its rows are in
calendar-month order with no month repeated; and concretely, a 2023-Jan row
with ADR 100 and a 2024-Jan row with ADR 200 aggregate into the single row
("Jan", mean 150, 2 bookings). -/
theorem yoy_spec :
    (∀ (t : List Row) (f : Row → Option ℤ),
      yoy (t.map fun r => { r with year := f r }) = yoy t) ∧
    (∀ t : List Row, List.Sorted calLE (yoy t)) ∧
    (∀ t : List Row, ((yoy t).map Prod.fst).Nodup) ∧
    yoy [{ month := some ("Jan"), year := some 2023, adr := some 100 },
         { month := some ("Jan"), year := some 2024, adr := some 200 }] =
      [("Jan", some 150, 2)] := by
  refine ⟨?_, ?_, ?_, ?_⟩
  · intro t f
    have h1 : (t.map fun r => { r with year := f r }).filterMap Row.month =
        t.filterMap Row.month := by
      rw [List.filterMap_map]; rfl
    have h2 : yoyAgg (t.map fun r => { r with year := f r }) = yoyAgg t := by
      funext m
      unfold yoyAgg
      rw [List.filter_map, List.filterMap_map]
      rfl
    unfold yoy yoyRows monthKeys
    rw [h1, h2]
  · intro t
    exact List.sorted_insertionSort calLE (yoyRows t)
  · intro t
    have hperm : List.Perm ((yoy t).map Prod.fst) ((yoyRows t).map Prod.fst) :=
      (List.perm_insertionSort calLE (yoyRows t)).map Prod.fst
    have hkeys : (yoyRows t).map Prod.fst = monthKeys t := by
      unfold yoyRows
      rw [List.map_map]
      exact List.map_id _
    have hnd : (monthKeys t).Nodup :=
      ((List.perm_insertionSort strLE _).nodup_iff).mpr (List.nodup_dedup _)
    exact hperm.nodup_iff.mpr (hkeys ▸ hnd)
  · simp +decide only [yoy, yoyRows, monthKeys, yoyAgg, calLE, strLE, monthNames,
      List.insertionSort, List.orderedInsert, beq_iff_eq, reduceIte,
      List.filterMap_cons, List.filterMap_nil, List.filter_cons, List.filter_nil,
      List.dedup_cons_of_not_mem, List.dedup_cons_of_mem, List.dedup_nil,
      List.map_cons, List.map_nil, List.sum_cons, List.sum_nil, List.length_cons,
      List.length_nil, Option.some.injEq]
    norm_num

end Dashboard
